import Mathlib

/-!
Shallow embedding of the security/governance core of the MLV Arcade
repository: the audit subsystem (`AuditManager`), access control
(`AuthorizationManager`), compliance engine (`ComplianceManager`) and the
crypto wrappers (`EncryptionManager`), together with theorems that settle
the specification claims about them.

Conventions of the embedding:
* timestamps (`new Date()` in the source) are `Nat` values passed in by the
  caller (for retention arithmetic the unit is days, matching the source's
  `setDate(getDate() + retentionPeriod)`);
* the SQLite tables of `AuditManager` are Lean lists, an `INSERT` is an
  append at the tail, an `UPDATE ... WHERE id = ?` is a `List.map` guarded
  on the id;
* random identifiers (`crypto.randomBytes(16).toString('hex')`) are drawn
  from a counter carried in the manager state;
* heterogeneous `metadata` records are string key/value lists, numeric and
  enum values rendered with `toString`;
* a fallible audit write (`StorageError` from the persistence layer) is
  modelled by the `storageFails` flag of `authorize`: when set, the write a
  branch attempts raises and the surrounding `try/catch` returns the
  "Authorization system error" result, leaving the store unchanged.
-/

/-! ## Audit subsystem (source: security/audit.ts) -/

inductive AuditResult
  | SUCCESS
  | FAILURE
  | PENDING
deriving DecidableEq

inductive SecEventType
  | AUTHENTICATION
  | AUTHORIZATION
  | DATA_ACCESS
  | AI_ACTION
  | SECURITY_VIOLATION
deriving DecidableEq

inductive Severity
  | LOW
  | MEDIUM
  | HIGH
  | CRITICAL
deriving DecidableEq

/-- A row of the `audit_events` table. -/
structure AuditEvent where
  id : String
  timestamp : Nat
  userId : String
  action : String
  resource : String
  result : AuditResult
  metadata : List (String × String)
  hash : String
deriving DecidableEq

/-- The event data `logAuditEvent` receives (`Omit<AuditEvent, 'id' | 'hash'>`). -/
structure AuditEventData where
  timestamp : Nat
  userId : String
  action : String
  resource : String
  result : AuditResult
  metadata : List (String × String)
deriving DecidableEq

/-- A row of the `security_events` table. -/
structure SecurityEvent where
  id : String
  timestamp : Nat
  eventType : SecEventType
  severity : Severity
  description : String
  userId : String
  metadata : List (String × String)
deriving DecidableEq

/-- The event data `logSecurityEvent` receives (`Omit<SecurityEvent, 'id'>`). -/
structure SecurityEventData where
  timestamp : Nat
  eventType : SecEventType
  severity : Severity
  description : String
  userId : String
  metadata : List (String × String)
deriving DecidableEq

/-- A row of the `ai_actions` table. -/
structure AIActionRow where
  id : String
  timestamp : Nat
  userId : String
  action : String
  approvedBy : Option String
  approvedAt : Option Nat
  executed : Bool
  executedAt : Option Nat
  metadata : List (String × String)
  hash : String
deriving DecidableEq

/-- Modelled from the spec: the keyed MAC (Node's `crypto.createHmac('sha256', key)`,
external to src/) that produces integrity tags; idealized as an injective
pairing of the key and the canonical serialization. -/
def generateHash (key msg : String) : String :=
  key ++ ":" ++ msg

/-- Canonical serialization of audit-event data (`JSON.stringify` in the
source, modelled as field concatenation). -/
def serializeAuditData (e : AuditEventData) : String :=
  toString e.timestamp ++ "|" ++ e.userId ++ "|" ++ e.action ++ "|" ++ e.resource

/-- `AuditManager`: the three append-only tables, the integrity-tag key and
the id counter standing in for `crypto.randomBytes`. -/
structure AuditManager where
  encryptionKey : String
  nextId : Nat
  auditEvents : List AuditEvent
  securityEvents : List SecurityEvent
  aiActions : List AIActionRow
deriving DecidableEq

/-- `AuditManager.logAuditEvent`: assign an id, compute the integrity tag,
insert the row, return the id. -/
def logAuditEvent (m : AuditManager) (e : AuditEventData) : AuditManager × String :=
  let id := toString m.nextId
  let hash := generateHash m.encryptionKey (serializeAuditData e)
  ({ m with
      nextId := m.nextId + 1
      auditEvents := m.auditEvents ++
        [⟨id, e.timestamp, e.userId, e.action, e.resource, e.result, e.metadata, hash⟩] },
    id)

/-- `AuditManager.logSecurityEvent`: assign an id and insert the row (no
integrity tag on security events). -/
def logSecurityEvent (m : AuditManager) (e : SecurityEventData) : AuditManager × String :=
  let id := toString m.nextId
  ({ m with
      nextId := m.nextId + 1
      securityEvents := m.securityEvents ++
        [⟨id, e.timestamp, e.eventType, e.severity, e.description, e.userId, e.metadata⟩] },
    id)

/-- `AuditManager.logAIAction`: insert a pending row in `ai_actions`
(`approved_by`/`approved_at` NULL, `executed` FALSE). -/
def logAIAction (m : AuditManager) (now : Nat) (userId action : String)
    (metadata : List (String × String)) : AuditManager × String :=
  let id := toString m.nextId
  let hash := generateHash m.encryptionKey (userId ++ "|" ++ action ++ "|" ++ toString now)
  ({ m with
      nextId := m.nextId + 1
      aiActions := m.aiActions ++
        [⟨id, now, userId, action, none, none, false, none, metadata, hash⟩] },
    id)

/-- `AuditManager.approveAIAction`: runs
`UPDATE ai_actions SET approved_by = ?, approved_at = CURRENT_TIMESTAMP,
executed = TRUE, executed_at = CURRENT_TIMESTAMP WHERE id = ?` and returns
`true` unconditionally (the row count is never inspected). -/
def approveAIAction (m : AuditManager) (now : Nat) (actionId approvedBy : String) :
    Bool × AuditManager :=
  let rows := m.aiActions.map fun r =>
    if r.id = actionId then
      { r with approvedBy := some approvedBy, approvedAt := some now,
               executed := true, executedAt := some now }
    else r
  (true, { m with aiActions := rows })

/-! ## Access control (source: security/authorization.ts) -/

inductive UserRole
  | EXECUTIVE
  | ADMIN
  | MANAGER
  | USER
  | VIEWER
deriving DecidableEq

/-- The string value of each `UserRole` enum member. -/
def roleToString : UserRole → String
  | .EXECUTIVE => "executive"
  | .ADMIN => "admin"
  | .MANAGER => "manager"
  | .USER => "user"
  | .VIEWER => "viewer"

structure Permission where
  resource : String
  actions : List String
deriving DecidableEq

structure User where
  id : String
  username : String
  email : String
  role : UserRole
  permissions : List Permission
  mfaEnabled : Bool
  isActive : Bool
deriving DecidableEq

structure AuthorizationResult where
  allowed : Bool
  reason : Option String := none
  requiredApproval : Option Bool := none
  auditRequired : Option Bool := none
deriving DecidableEq

/-- The static role→permission table built by `initializeRolePermissions`. -/
def rolePermissions : UserRole → List Permission
  | .EXECUTIVE =>
      [⟨"*", ["*"]⟩,
       ⟨"ai_actions", ["approve", "reject", "execute"]⟩,
       ⟨"security", ["view", "configure", "audit"]⟩,
       ⟨"users", ["create", "read", "update", "delete"]⟩]
  | .ADMIN =>
      [⟨"users", ["read", "update"]⟩,
       ⟨"ai_actions", ["view", "approve"]⟩,
       ⟨"audit", ["read"]⟩,
       ⟨"security", ["view"]⟩]
  | .MANAGER =>
      [⟨"ai_actions", ["view", "request"]⟩,
       ⟨"users", ["read"]⟩,
       ⟨"audit", ["read"]⟩]
  | .USER =>
      [⟨"ai_actions", ["view", "request"]⟩,
       ⟨"profile", ["read", "update"]⟩]
  | .VIEWER =>
      [⟨"ai_actions", ["view"]⟩,
       ⟨"profile", ["read"]⟩]

/-- `AuthorizationManager.checkPermission`: wildcard-or-exact resource and
action match over the role's permission list. -/
def checkPermission (role : UserRole) (resource action : String) : Bool :=
  (rolePermissions role).any fun permission =>
    (permission.resource == "*" && permission.actions.contains "*")
    || ((permission.resource == resource || permission.resource == "*")
        && (permission.actions.contains action || permission.actions.contains "*"))

/-- `AuthorizationManager.requiresMFA`. -/
def requiresMFA (resource action : String) : Bool :=
  ["security", "users", "ai_actions"].contains resource
  || ["delete", "execute", "approve", "configure"].contains action

/-- `AuthorizationManager.requiresExecutiveApproval`. -/
def requiresExecutiveApproval (resource action : String) : Bool :=
  ["ai_actions", "security", "users"].contains resource
  || ["execute", "approve", "delete", "configure"].contains action

/-- `AuthorizationManager.requiresAudit`. -/
def requiresAudit (resource action : String) : Bool :=
  ["ai_actions", "security", "users", "audit"].contains resource
  || ["create", "update", "delete", "execute", "approve"].contains action

/-- The result the `catch` branch of `authorize` returns. -/
def sysErrorResult : AuthorizationResult :=
  { allowed := false, reason := some "Authorization system error" }

/-- `AuthorizationManager.authorize`. Each branch performs its audit write
before returning; `storageFails` makes that write raise, landing in the
`catch` branch (`sysErrorResult`, store untouched — a failed `INSERT`
persists nothing). `context` is accepted and, as in the source, never read. -/
def authorize (storageFails : Bool) (m : AuditManager) (now : Nat) (user : User)
    (resource action : String) (_context : List (String × String)) :
    AuthorizationResult × AuditManager :=
  if !user.isActive then
    if storageFails then (sysErrorResult, m) else
    let (m', _) := logSecurityEvent m
      { timestamp := now, eventType := .AUTHORIZATION, severity := .HIGH
        description := "Inactive user attempted access: " ++ user.id
        userId := user.id, metadata := [("resource", resource), ("action", action)] }
    ({ allowed := false, reason := some "User account is inactive" }, m')
  else if requiresMFA resource action && !user.mfaEnabled then
    if storageFails then (sysErrorResult, m) else
    let (m', _) := logSecurityEvent m
      { timestamp := now, eventType := .AUTHORIZATION, severity := .MEDIUM
        description := "MFA required for action: " ++ action ++ " on " ++ resource
        userId := user.id, metadata := [("resource", resource), ("action", action)] }
    ({ allowed := false, reason := some "Multi-factor authentication required" }, m')
  else if !checkPermission user.role resource action then
    if storageFails then (sysErrorResult, m) else
    let (m', _) := logSecurityEvent m
      { timestamp := now, eventType := .AUTHORIZATION, severity := .HIGH
        description := "Unauthorized access attempt: " ++ action ++ " on " ++ resource
        userId := user.id
        metadata := [("resource", resource), ("action", action), ("role", roleToString user.role)] }
    ({ allowed := false, reason := some "Insufficient permissions" }, m')
  else if requiresExecutiveApproval resource action && !decide (user.role = UserRole.EXECUTIVE) then
    if storageFails then (sysErrorResult, m) else
    let (m', _) := logSecurityEvent m
      { timestamp := now, eventType := .AUTHORIZATION, severity := .MEDIUM
        description := "Executive approval required for: " ++ action ++ " on " ++ resource
        userId := user.id, metadata := [("resource", resource), ("action", action)] }
    ({ allowed := false, reason := some "Executive approval required",
       requiredApproval := some true }, m')
  else
    if storageFails then (sysErrorResult, m) else
    let (m', _) := logAuditEvent m
      { timestamp := now, userId := user.id
        action := "AUTHORIZE_" ++ action.toUpper, resource := resource
        result := .SUCCESS
        metadata := [("role", roleToString user.role),
                     ("requiresApproval", toString (requiresExecutiveApproval resource action))] }
    ({ allowed := true, auditRequired := some (requiresAudit resource action) }, m')

/-- `AuthorizationManager.updateUserRole`: the guard compares the `updatedBy`
string with the literal `'executive'` (the `UserRole.EXECUTIVE` enum value),
then writes the security event or the success audit record. -/
def updateUserRole (m : AuditManager) (now : Nat) (userId : String) (newRole : UserRole)
    (updatedBy : String) : Bool × AuditManager :=
  if !(updatedBy == "executive") then
    let (m', _) := logSecurityEvent m
      { timestamp := now, eventType := .AUTHORIZATION, severity := .HIGH
        description := "Unauthorized role change attempt: " ++ userId
        userId := updatedBy
        metadata := [("targetUserId", userId), ("newRole", roleToString newRole)] }
    (false, m')
  else
    let (m', _) := logAuditEvent m
      { timestamp := now, userId := updatedBy, action := "UPDATE_USER_ROLE"
        resource := "users", result := .SUCCESS
        metadata := [("targetUserId", userId), ("newRole", roleToString newRole)] }
    (true, m')

/-! ## Compliance engine (source: security/compliance.ts) -/

inductive ReqStatus
  | COMPLIANT
  | NON_COMPLIANT
  | PARTIAL
deriving DecidableEq

inductive ReqCategory
  | DATA_PROTECTION
  | ACCESS_CONTROL
  | AUDIT
  | ENCRYPTION
  | RETENTION
deriving DecidableEq

structure ComplianceRequirement where
  id : String
  title : String
  description : String
  category : ReqCategory
  status : ReqStatus
  evidence : List String
  lastChecked : Nat
deriving DecidableEq

inductive FwStatus
  | COMPLIANT
  | NON_COMPLIANT
  | PARTIAL
  | PENDING
deriving DecidableEq

/-- The string value of a framework status, for audit metadata. -/
def fwStatusToString : FwStatus → String
  | .COMPLIANT => "COMPLIANT"
  | .NON_COMPLIANT => "NON_COMPLIANT"
  | .PARTIAL => "PARTIAL"
  | .PENDING => "PENDING"

structure ComplianceFramework where
  name : String
  version : String
  requirements : List ComplianceRequirement
  lastAssessment : Nat
  status : FwStatus
deriving DecidableEq

inductive DeletionMethod
  | SECURE_DELETE
  | OVERWRITE
  | CRYPTOGRAPHIC_ERASE
deriving DecidableEq

/-- The string value of a deletion method, for audit metadata. -/
def deletionMethodToString : DeletionMethod → String
  | .SECURE_DELETE => "SECURE_DELETE"
  | .OVERWRITE => "OVERWRITE"
  | .CRYPTOGRAPHIC_ERASE => "CRYPTOGRAPHIC_ERASE"

structure DataRetentionPolicy where
  dataType : String
  retentionPeriod : Nat
  encryptionRequired : Bool
  deletionMethod : DeletionMethod
  auditRequired : Bool
deriving DecidableEq

structure ComplianceManager where
  frameworks : List (String × ComplianceFramework)
  retentionPolicies : List DataRetentionPolicy
deriving DecidableEq

/-- `ComplianceManager.checkAccessControlCompliance`. -/
def checkAccessControlCompliance (requirement : ComplianceRequirement) : ReqStatus :=
  let hasRBAC := requirement.evidence.contains "RBAC implementation"
  let hasMFA := requirement.evidence.contains "MFA enforcement"
  let hasLogs := requirement.evidence.contains "Access logs"
  if hasRBAC && hasMFA && hasLogs then .COMPLIANT
  else if hasRBAC || hasMFA then .PARTIAL
  else .NON_COMPLIANT

/-- `ComplianceManager.checkEncryptionCompliance`. -/
def checkEncryptionCompliance (requirement : ComplianceRequirement) : ReqStatus :=
  let hasEncryption := requirement.evidence.contains "End-to-end encryption"
  let hasKeyManagement := requirement.evidence.contains "Key management"
  let hasHSM := requirement.evidence.contains "HSM integration"
  if hasEncryption && hasKeyManagement && hasHSM then .COMPLIANT
  else if hasEncryption || hasKeyManagement then .PARTIAL
  else .NON_COMPLIANT

/-- `ComplianceManager.checkAuditCompliance`. -/
def checkAuditCompliance (requirement : ComplianceRequirement) : ReqStatus :=
  let hasMonitoring := requirement.evidence.contains "Real-time monitoring"
  let hasLogging := requirement.evidence.contains "Security event logging"
  let hasTrails := requirement.evidence.contains "Audit trails"
  if hasMonitoring && hasLogging && hasTrails then .COMPLIANT
  else if hasLogging || hasTrails then .PARTIAL
  else .NON_COMPLIANT

/-- `ComplianceManager.checkDataProtectionCompliance`. -/
def checkDataProtectionCompliance (requirement : ComplianceRequirement) : ReqStatus :=
  let hasEncryption := requirement.evidence.contains "Data encryption"
  let hasAccessControls := requirement.evidence.contains "Access controls"
  let hasAuditLogging := requirement.evidence.contains "Audit logging"
  if hasEncryption && hasAccessControls && hasAuditLogging then .COMPLIANT
  else if hasEncryption || hasAccessControls then .PARTIAL
  else .NON_COMPLIANT

/-- `ComplianceManager.checkRetentionCompliance`. -/
def checkRetentionCompliance (requirement : ComplianceRequirement) : ReqStatus :=
  let hasDeletionProcedures := requirement.evidence.contains "Data deletion procedures"
  let hasRetentionPolicies := requirement.evidence.contains "Retention policies"
  if hasDeletionProcedures && hasRetentionPolicies then .COMPLIANT
  else if hasDeletionProcedures || hasRetentionPolicies then .PARTIAL
  else .NON_COMPLIANT

/-- `ComplianceManager.checkRequirement`: dispatch on the category (the
source's `default` branch is unreachable, the enum having five members). -/
def checkRequirement (requirement : ComplianceRequirement) : ReqStatus :=
  match requirement.category with
  | .ACCESS_CONTROL => checkAccessControlCompliance requirement
  | .ENCRYPTION => checkEncryptionCompliance requirement
  | .AUDIT => checkAuditCompliance requirement
  | .DATA_PROTECTION => checkDataProtectionCompliance requirement
  | .RETENTION => checkRetentionCompliance requirement

/-- `Map.get` over the framework table. -/
def findFramework (frameworks : List (String × ComplianceFramework)) (name : String) :
    Option ComplianceFramework :=
  match frameworks with
  | [] => none
  | (k, v) :: rest => if k = name then some v else findFramework rest name

/-- The overall-status computation at the end of `assessCompliance`. -/
def overallStatus (reqs : List ComplianceRequirement) : FwStatus :=
  let ncCount := (reqs.filter fun r => decide (r.status = ReqStatus.NON_COMPLIANT)).length
  let pCount := (reqs.filter fun r => decide (r.status = ReqStatus.PARTIAL)).length
  if ncCount = 0 ∧ pCount = 0 then .COMPLIANT
  else if ncCount = 0 then .PARTIAL
  else .NON_COMPLIANT

/-- `ComplianceManager.assessCompliance`: unknown name throws; otherwise each
requirement's status is recomputed from its category rule, the overall status
is derived, the updated framework replaces the stored one (the source mutates
the object the `Map` holds) and one audit record is written. -/
def assessCompliance (cm : ComplianceManager) (am : AuditManager) (now : Nat)
    (frameworkName : String) :
    Except String (ComplianceFramework × ComplianceManager × AuditManager) :=
  match findFramework cm.frameworks frameworkName with
  | none => .error ("Compliance framework " ++ frameworkName ++ " not found")
  | some framework =>
    let reqs := framework.requirements.map fun r =>
      { r with status := checkRequirement r, lastChecked := now }
    let fw' := { framework with
                  requirements := reqs
                  status := overallStatus reqs
                  lastAssessment := now }
    let cm' := { cm with frameworks := cm.frameworks.map fun p =>
                  if p.1 = frameworkName then (p.1, fw') else p }
    let (am', _) := logAuditEvent am
      { timestamp := now, userId := "system", action := "COMPLIANCE_ASSESSMENT"
        resource := frameworkName, result := .SUCCESS
        metadata := [("status", fwStatusToString fw'.status),
                     ("requirements", toString reqs.length)] }
    .ok (fw', cm', am')

/-- `ComplianceManager.getDataRetentionPolicy`. -/
def getDataRetentionPolicy (cm : ComplianceManager) (dataType : String) :
    Option DataRetentionPolicy :=
  cm.retentionPolicies.find? fun policy => policy.dataType == dataType

/-- `ComplianceManager.scheduleDataDeletion`: without a policy it only logs a
warning (no audit write) and returns `false`; with one it writes a single
audit record carrying the deletion date (`now` counted in days). -/
def scheduleDataDeletion (cm : ComplianceManager) (am : AuditManager) (now : Nat)
    (dataType : String) : Bool × AuditManager :=
  match getDataRetentionPolicy cm dataType with
  | none => (false, am)
  | some policy =>
    let deletionDate := now + policy.retentionPeriod
    let (am', _) := logAuditEvent am
      { timestamp := now, userId := "system", action := "SCHEDULE_DELETION"
        resource := dataType, result := .SUCCESS
        metadata := [("deletionDate", toString deletionDate),
                     ("retentionPeriod", toString policy.retentionPeriod),
                     ("deletionMethod", deletionMethodToString policy.deletionMethod)] }
    (true, am')

/-- The SOC 2 framework built by `initializeComplianceFrameworks` (`now0` is
the construction timestamp). -/
def soc2Framework (now0 : Nat) : ComplianceFramework :=
  { name := "SOC 2 Type II", version := "2023", status := .COMPLIANT
    lastAssessment := now0
    requirements :=
      [{ id := "CC6.1", title := "Logical Access Security"
         description := "Implement logical access security software, infrastructure, and architectures over protected information assets"
         category := .ACCESS_CONTROL, status := .COMPLIANT
         evidence := ["RBAC implementation", "MFA enforcement", "Access logs"]
         lastChecked := now0 },
       { id := "CC6.2", title := "Access Restriction"
         description := "Restrict access to information assets"
         category := .ACCESS_CONTROL, status := .COMPLIANT
         evidence := ["Role-based permissions", "Executive approval system"]
         lastChecked := now0 },
       { id := "CC7.1", title := "System Operations"
         description := "Use system operations to detect, monitor, and alert on security events"
         category := .AUDIT, status := .COMPLIANT
         evidence := ["Real-time monitoring", "Security event logging", "Audit trails"]
         lastChecked := now0 }] }

/-- The ISO 27001 framework built by `initializeComplianceFrameworks`. -/
def iso27001Framework (now0 : Nat) : ComplianceFramework :=
  { name := "ISO 27001", version := "2022", status := .COMPLIANT
    lastAssessment := now0
    requirements :=
      [{ id := "A.9.1", title := "Access Control Policy"
         description := "Business requirements for access control"
         category := .ACCESS_CONTROL, status := .COMPLIANT
         evidence := ["Access control policies", "User provisioning procedures"]
         lastChecked := now0 },
       { id := "A.10.1", title := "Cryptographic Controls"
         description := "Policy on the use of cryptographic controls"
         category := .ENCRYPTION, status := .COMPLIANT
         evidence := ["End-to-end encryption", "Key management", "HSM integration"]
         lastChecked := now0 }] }

/-- The GDPR framework built by `initializeComplianceFrameworks`. -/
def gdprFramework (now0 : Nat) : ComplianceFramework :=
  { name := "GDPR", version := "2018", status := .COMPLIANT
    lastAssessment := now0
    requirements :=
      [{ id := "Art.32", title := "Security of Processing"
         description := "Implement appropriate technical and organizational measures"
         category := .DATA_PROTECTION, status := .COMPLIANT
         evidence := ["Data encryption", "Access controls", "Audit logging"]
         lastChecked := now0 },
       { id := "Art.17", title := "Right to Erasure"
         description := "Data subject right to have personal data erased"
         category := .RETENTION, status := .COMPLIANT
         evidence := ["Data deletion procedures", "Retention policies"]
         lastChecked := now0 }] }

/-- The retention policies built by `initializeRetentionPolicies`. -/
def initialRetentionPolicies : List DataRetentionPolicy :=
  [{ dataType := "audit_logs", retentionPeriod := 2555, encryptionRequired := true
     deletionMethod := .SECURE_DELETE, auditRequired := true },
   { dataType := "user_data", retentionPeriod := 365, encryptionRequired := true
     deletionMethod := .CRYPTOGRAPHIC_ERASE, auditRequired := true },
   { dataType := "ai_actions", retentionPeriod := 1095, encryptionRequired := true
     deletionMethod := .SECURE_DELETE, auditRequired := true },
   { dataType := "security_events", retentionPeriod := 2555, encryptionRequired := true
     deletionMethod := .SECURE_DELETE, auditRequired := true }]

/-- A `ComplianceManager` as the constructor leaves it. -/
def initialComplianceManager (now0 : Nat) : ComplianceManager :=
  { frameworks := [("SOC2", soc2Framework now0), ("ISO27001", iso27001Framework now0),
                   ("GDPR", gdprFramework now0)]
    retentionPolicies := initialRetentionPolicies }

/-! ## Crypto wrappers (source: security/encryption.ts)

The Node `crypto` primitives are external to the repository; the AEAD layer
(`createCipher`/`createDecipher` with `aes-256-gcm`) and the key derivation
are modelled from the spec's authenticated-encryption contract. -/

/-- Modelled from the spec: `deriveKey` (PBKDF2 over password and salt, Node
`crypto.pbkdf2Sync`, external to src/); idealized as a collision-free
function of password and salt, so the derived key is the pair itself. -/
def deriveKey (password : String) (salt : List Nat) : String × List Nat :=
  (password, salt)

/-- Key material a toy reversible byte encoding mixes in. -/
def keyMaterial (key : String × List Nat) : Nat :=
  (key.1.data.map Char.toNat).sum + key.2.sum

/-- Modelled from the spec: the AEAD cipher's byte transformation, a keyed
reversible encoding (confidentiality itself is outside the claims). -/
def encodeBytes (key : String × List Nat) (plaintext : List Nat) : List Nat :=
  plaintext.map fun b => b + keyMaterial key

/-- Inverse of `encodeBytes` under the same key. -/
def decodeBytes (key : String × List Nat) (ciphertext : List Nat) : List Nat :=
  ciphertext.map fun b => b - keyMaterial key

/-- Modelled from the spec: the GCM authentication tag; idealized as the
unforgeable MAC value determined by key, associated data and ciphertext. -/
def gcmSeal (key : String × List Nat) (aad : String) (plaintext : List Nat) :
    List Nat × ((String × List Nat) × String × List Nat) :=
  let ciphertext := encodeBytes key plaintext
  (ciphertext, (key, aad, ciphertext))

/-- Modelled from the spec: GCM opening checks the tag against key,
associated data and ciphertext; mismatch is a hard failure. -/
def gcmOpen (key : String × List Nat) (aad : String) (ciphertext : List Nat)
    (tag : (String × List Nat) × String × List Nat) : Option (List Nat) :=
  if tag = (key, aad, ciphertext) then some (decodeBytes key ciphertext) else none

/-- The bundle `EncryptionManager.encrypt` returns. -/
structure EncryptedBundle where
  encrypted : List Nat
  iv : List Nat
  tag : (String × List Nat) × String × List Nat
  salt : List Nat
deriving DecidableEq

/-- `EncryptionManager.encrypt`: derive the key from the (user or master)
key string and the per-call salt, seal with AAD `'gunnchai3k'`. The random
`iv` is stored in the bundle but, as with the source's deprecated
`createCipher`, never reaches the cipher. -/
def encrypt (masterKey : String) (userKey : Option String) (salt iv : List Nat)
    (data : List Nat) : EncryptedBundle :=
  let key := deriveKey (userKey.getD masterKey) salt
  let (ciphertext, tag) := gcmSeal key "gunnchai3k" data
  { encrypted := ciphertext, iv := iv, tag := tag, salt := salt }

/-- `EncryptionManager.decrypt`: re-derive the key from the bundle's salt,
open; tag mismatch raises `Decryption failed`. -/
def decrypt (masterKey : String) (userKey : Option String) (bundle : EncryptedBundle) :
    Except String (List Nat) :=
  let key := deriveKey (userKey.getD masterKey) bundle.salt
  match gcmOpen key "gunnchai3k" bundle.encrypted bundle.tag with
  | some plaintext => .ok plaintext
  | none => .error "Decryption failed"

/-- Modelled from the spec: Node `crypto.pbkdf2Sync` as `hashPassword` uses
it — a deterministic digest of the requested output length (the claims about
`verifyPassword` depend on determinism and the fixed 64-byte length). -/
def pbkdf2Digest (password salt : String) (_iterations keylen : Nat) : List Nat :=
  (List.range keylen).map fun i =>
    (password.data.map Char.toNat).sum + (salt.data.map Char.toNat).sum + i

/-- `EncryptionManager.hashPassword` with the salt supplied (the random
default salt is a caller-side concern here): PBKDF2, 100000 iterations,
64-byte digest. -/
def hashPassword (password salt : String) : List Nat × String :=
  (pbkdf2Digest password salt 100000 64, salt)

/-- Modelled from the spec/Node contract: `crypto.timingSafeEqual` raises
when the buffers differ in length, else compares in constant time. -/
def timingSafeEqual (a b : List Nat) : Except String Bool :=
  if a.length = b.length then .ok (a = b)
  else .error "Input buffers must have the same byte length"

/-- `EncryptionManager.verifyPassword`: recompute the digest and compare
with `timingSafeEqual`. -/
def verifyPassword (password : String) (hash : List Nat) (salt : String) :
    Except String Bool :=
  let computed := (hashPassword password salt).1
  timingSafeEqual hash computed

/-! ## Concrete instances used by the theorems -/

/-- An empty audit store with integrity-tag key `"k"`. -/
def demoAudit : AuditManager :=
  { encryptionKey := "k", nextId := 0, auditEvents := [], securityEvents := [],
    aiActions := [] }

/-- A directory assigning each principal id its role, in which the account
whose id happens to be the string `"executive"` is a Viewer while `"carol"`
holds the Executive role. -/
def demoRoleOf : String → UserRole :=
  fun id => if id = "executive" then .VIEWER else .EXECUTIVE

/-- The audit store after `logAIAction` queued one pending agent action
(id `"0"`). -/
def pendingDemo : AuditManager :=
  (logAIAction demoAudit 3 "agent7" "deploy_update" []).1

/-- Approver and decision timestamp of the first `ai_actions` row. -/
def approvalStateOf (m : AuditManager) : Option (Option String × Option Nat) :=
  m.aiActions.head?.map fun r => (r.approvedBy, r.approvedAt)

/-- Does a string contain `sub` as a contiguous substring? -/
def containsSub (hay sub : List Char) : Bool :=
  (List.range (hay.length + 1)).any fun i => sub.isPrefixOf (hay.drop i)

/-- Does the denial reason mention multi-factor authentication (the phrase
the source emits)? -/
def mentionsMFA (s : String) : Bool :=
  containsSub s.data "Multi-factor authentication".data

/-! ## Claim theorems -/

/-- C1: the claim says `updateUserRole` succeeds only when the caller holds
the Executive role and that every non-Executive caller is rejected with a
security event. The code instead compares the `updatedBy` identifier with
the string literal `"executive"`: under `demoRoleOf`, the Viewer whose id is
`"executive"` succeeds while the Executive `"carol"` is rejected. -/
theorem updateUserRole_role_check_bug :
    (updateUserRole demoAudit 0 "bob" UserRole.ADMIN "executive").1 = true
    ∧ demoRoleOf "executive" = UserRole.VIEWER
    ∧ (updateUserRole demoAudit 0 "bob" UserRole.ADMIN "carol").1 = false
    ∧ demoRoleOf "carol" = UserRole.EXECUTIVE := by
  decide

/-- C2: the claim says `approveAgentAction` on an unknown id returns false
or raises `NotFound`. The code runs the unconditional `UPDATE`, never
inspects the affected row count, and returns `true` even on an empty store
(the store itself is unchanged, so no approval record exists either). -/
theorem approveAIAction_unknown_id_bug :
    approveAIAction demoAudit 5 "unknown-id" "execAlice" = (true, demoAudit) := by
  decide

/-- C6: the claim says an already-decided agent action is immutable and a
second `approveAgentAction` call is rejected. The code's unguarded `UPDATE`
accepts the second call (returns `true`) and overwrites the stored approver
and decision timestamp from `execAlice`/10 to `execBob`/20. -/
theorem approveAIAction_redecide_bug :
    (approveAIAction (approveAIAction pendingDemo 10 "0" "execAlice").2 20 "0" "execBob").1
      = true
    ∧ approvalStateOf (approveAIAction pendingDemo 10 "0" "execAlice").2
      = some (some "execAlice", some 10)
    ∧ approvalStateOf
        (approveAIAction (approveAIAction pendingDemo 10 "0" "execAlice").2 20 "0" "execBob").2
      = some (some "execBob", some 20) := by
  decide

/-- C9: when no retention policy matches the data type,
`scheduleDataDeletion` returns `false` and leaves the audit store untouched
(the only side effect is a logger warning). -/
theorem scheduleDataDeletion_no_policy (cm : ComplianceManager) (am : AuditManager)
    (now : Nat) (dataType : String)
    (h : getDataRetentionPolicy cm dataType = none) :
    scheduleDataDeletion cm am now dataType = (false, am) := by
  unfold scheduleDataDeletion
  rw [h]

/-- Witness for C9: the initial policy table has no entry for
`"session_data"`, so the call fails and the audit store is unchanged. -/
theorem scheduleDataDeletion_no_policy_witness :
    getDataRetentionPolicy (initialComplianceManager 0) "session_data" = none
    ∧ scheduleDataDeletion (initialComplianceManager 0) demoAudit 5 "session_data"
      = (false, demoAudit) :=
  ⟨by decide, scheduleDataDeletion_no_policy (initialComplianceManager 0) demoAudit 5
    "session_data" (by decide)⟩

/-- C10: `verifyPassword` reaches a boolean exactly when the stored hash has
the 64-byte length of the recomputed PBKDF2 digest; any other length makes
`timingSafeEqual` raise instead of returning `false`. -/
theorem verifyPassword_length_guard (password salt : String) (hash : List Nat) :
    (∃ b, verifyPassword password hash salt = Except.ok b) ↔ hash.length = 64 := by
  have hl : (pbkdf2Digest password salt 100000 64).length = 64 := by
    simp [pbkdf2Digest]
  constructor
  · rintro ⟨b, hb⟩
    by_cases hc : hash.length = (pbkdf2Digest password salt 100000 64).length
    · rw [hl] at hc
      exact hc
    · simp [verifyPassword, hashPassword, timingSafeEqual, hc] at hb
  · intro h64
    refine ⟨decide (hash = pbkdf2Digest password salt 100000 64), ?_⟩
    have hc : hash.length = (pbkdf2Digest password salt 100000 64).length := by
      rw [hl, h64]
    simp [verifyPassword, hashPassword, timingSafeEqual, hc]

/-- C7: round trip — decrypting a bundle under the key that produced it
recovers the plaintext; tampering with the ciphertext or the tag, or
decrypting under a key whose derived key differs, is a hard
`Decryption failed` error and never yields plaintext. -/
theorem encrypt_decrypt_spec (masterKey : String) (userKey : Option String)
    (salt iv x : List Nat) :
    (x ≠ [] → decrypt masterKey userKey (encrypt masterKey userKey salt iv x)
      = Except.ok x)
    ∧ (∀ ct, ct ≠ (encrypt masterKey userKey salt iv x).encrypted →
        decrypt masterKey userKey { encrypt masterKey userKey salt iv x with encrypted := ct }
          = Except.error "Decryption failed")
    ∧ (∀ tg, tg ≠ (encrypt masterKey userKey salt iv x).tag →
        decrypt masterKey userKey { encrypt masterKey userKey salt iv x with tag := tg }
          = Except.error "Decryption failed")
    ∧ (∀ mk2 uk2, Option.getD uk2 mk2 ≠ Option.getD userKey masterKey →
        decrypt mk2 uk2 (encrypt masterKey userKey salt iv x)
          = Except.error "Decryption failed") := by
  refine ⟨?_, ?_, ?_, ?_⟩
  · intro _
    simp [encrypt, decrypt, gcmSeal, gcmOpen, encodeBytes, decodeBytes, List.map_map]
    rw [show ((fun b => b - keyMaterial (deriveKey (Option.getD userKey masterKey) salt)) ∘
          fun b => b + keyMaterial (deriveKey (Option.getD userKey masterKey) salt))
        = fun b => b from funext fun b => by simp]
    exact List.map_id' x
  · intro ct hct
    simp only [encrypt, decrypt, gcmSeal, gcmOpen]
    rw [if_neg]
    intro hcontra
    exact hct (congrArg (fun t => t.2.2) hcontra).symm
  · intro tg htg
    simp only [encrypt, decrypt, gcmSeal, gcmOpen]
    rw [if_neg]
    intro hcontra
    exact htg hcontra
  · intro mk2 uk2 hkey
    simp only [encrypt, decrypt, gcmSeal, gcmOpen, deriveKey]
    rw [if_neg]
    intro hcontra
    exact hkey (congrArg (fun t => t.1.1) hcontra).symm

/-- Witness for C7: a concrete round trip succeeds, and the tampered or
wrong-key decryptions fail hard. -/
theorem encrypt_decrypt_spec_witness :
    decrypt "master" none (encrypt "master" none [1] [2] [3, 4]) = Except.ok [3, 4]
    ∧ decrypt "master" none
        { encrypt "master" none [1] [2] [3, 4] with encrypted := [9] }
      = Except.error "Decryption failed"
    ∧ decrypt "master" none
        { encrypt "master" none [1] [2] [3, 4] with tag := (("tampered", []), "", []) }
      = Except.error "Decryption failed"
    ∧ decrypt "other" none (encrypt "master" none [1] [2] [3, 4])
      = Except.error "Decryption failed" :=
  ⟨(encrypt_decrypt_spec "master" none [1] [2] [3, 4]).1 (by decide),
   (encrypt_decrypt_spec "master" none [1] [2] [3, 4]).2.1 [9] (by decide),
   (encrypt_decrypt_spec "master" none [1] [2] [3, 4]).2.2.1 (("tampered", []), "", [])
     (by decide),
   (encrypt_decrypt_spec "master" none [1] [2] [3, 4]).2.2.2 "other" none (by decide)⟩

/-- An active Executive with MFA, used by the error-path counterexample. -/
def activeExec : User :=
  { id := "exec-2", username := "bob", email := "bob@example.com", role := .EXECUTIVE
    permissions := [], mfaEnabled := true, isActive := true }

/-- An inactive Executive without MFA, used by the MFA counterexample. -/
def inactiveNoMfaExec : User :=
  { id := "exec-1", username := "alice", email := "alice@example.com", role := .EXECUTIVE
    permissions := [], mfaEnabled := false, isActive := false }

/-- C3 counterexample: when the audit write raises, the `catch` branch of
`authorize` returns a decision (`Authorization system error`, denied) while
the audit subsystem receives zero writes — refuting the claim that every
branch, the internal error path included, appends exactly one record. -/
theorem authorize_error_path_zero_writes :
    (authorize true demoAudit 0 activeExec "profile" "read" []).2 = demoAudit
    ∧ (authorize true demoAudit 0 activeExec "profile" "read" []).1 = sysErrorResult := by
  decide

/-- C3 (amended): when the audit backend does not fail, a call to
`authorize` appends exactly one record — a security event of Medium or High
severity on every denial, one audit record on an allow — and leaves the
other tables unchanged. -/
theorem authorize_exactly_one_audit_write (am : AuditManager) (now : Nat) (user : User)
    (resource action : String) (context : List (String × String)) :
    ((authorize false am now user resource action context).1.allowed = false
      ∧ (∃ e, (authorize false am now user resource action context).2.securityEvents
            = am.securityEvents ++ [e]
          ∧ (e.severity = Severity.MEDIUM ∨ e.severity = Severity.HIGH))
      ∧ (authorize false am now user resource action context).2.auditEvents = am.auditEvents
      ∧ (authorize false am now user resource action context).2.aiActions = am.aiActions)
    ∨ ((authorize false am now user resource action context).1.allowed = true
      ∧ (∃ e, (authorize false am now user resource action context).2.auditEvents
            = am.auditEvents ++ [e])
      ∧ (authorize false am now user resource action context).2.securityEvents
          = am.securityEvents
      ∧ (authorize false am now user resource action context).2.aiActions = am.aiActions) := by
  by_cases hA : user.isActive
  · by_cases hM : requiresMFA resource action && !user.mfaEnabled
    · exact Or.inl ⟨by simp [authorize, hA, hM],
        ⟨⟨toString am.nextId, now, SecEventType.AUTHORIZATION, Severity.MEDIUM,
          "MFA required for action: " ++ action ++ " on " ++ resource, user.id,
          [("resource", resource), ("action", action)]⟩,
         by simp [authorize, hA, hM, logSecurityEvent], Or.inl rfl⟩,
        by simp [authorize, hA, hM, logSecurityEvent],
        by simp [authorize, hA, hM, logSecurityEvent]⟩
    · by_cases hP : checkPermission user.role resource action
      · by_cases hE : requiresExecutiveApproval resource action
            && !decide (user.role = UserRole.EXECUTIVE)
        · exact Or.inl ⟨by simp [authorize, hA, hM, hP, hE],
            ⟨⟨toString am.nextId, now, SecEventType.AUTHORIZATION, Severity.MEDIUM,
              "Executive approval required for: " ++ action ++ " on " ++ resource, user.id,
              [("resource", resource), ("action", action)]⟩,
             by simp [authorize, hA, hM, hP, hE, logSecurityEvent], Or.inl rfl⟩,
            by simp [authorize, hA, hM, hP, hE, logSecurityEvent],
            by simp [authorize, hA, hM, hP, hE, logSecurityEvent]⟩
        · exact Or.inr ⟨by simp [authorize, hA, hM, hP, hE],
            ⟨⟨toString am.nextId, now, user.id, "AUTHORIZE_" ++ action.toUpper, resource,
              AuditResult.SUCCESS,
              [("role", roleToString user.role),
               ("requiresApproval", toString (requiresExecutiveApproval resource action))],
              generateHash am.encryptionKey (serializeAuditData
                ⟨now, user.id, "AUTHORIZE_" ++ action.toUpper, resource, AuditResult.SUCCESS,
                 [("role", roleToString user.role),
                  ("requiresApproval",
                    toString (requiresExecutiveApproval resource action))]⟩)⟩,
             by simp [authorize, hA, hM, hP, hE, logAuditEvent]⟩,
            by simp [authorize, hA, hM, hP, hE, logAuditEvent],
            by simp [authorize, hA, hM, hP, hE, logAuditEvent]⟩
      · exact Or.inl ⟨by simp [authorize, hA, hM, hP],
          ⟨⟨toString am.nextId, now, SecEventType.AUTHORIZATION, Severity.HIGH,
            "Unauthorized access attempt: " ++ action ++ " on " ++ resource, user.id,
            [("resource", resource), ("action", action), ("role", roleToString user.role)]⟩,
           by simp [authorize, hA, hM, hP, logSecurityEvent], Or.inr rfl⟩,
          by simp [authorize, hA, hM, hP, logSecurityEvent],
          by simp [authorize, hA, hM, hP, logSecurityEvent]⟩
  · exact Or.inl ⟨by simp [authorize, hA],
      ⟨⟨toString am.nextId, now, SecEventType.AUTHORIZATION, Severity.HIGH,
        "Inactive user attempted access: " ++ user.id, user.id,
        [("resource", resource), ("action", action)]⟩,
       by simp [authorize, hA, logSecurityEvent], Or.inr rfl⟩,
      by simp [authorize, hA, logSecurityEvent],
      by simp [authorize, hA, logSecurityEvent]⟩

/-- C4 counterexample: an inactive principal with `mfaEnabled = false` on
resource `security` is denied with reason `User account is inactive`, which
does not mention multi-factor authentication — refuting the claim for
principals that are not active. -/
theorem authorize_mfa_claim_counterexample :
    inactiveNoMfaExec.mfaEnabled = false
    ∧ (authorize false demoAudit 0 inactiveNoMfaExec "security" "view" []).1.allowed = false
    ∧ (authorize false demoAudit 0 inactiveNoMfaExec "security" "view" []).1.reason
      = some "User account is inactive"
    ∧ mentionsMFA "User account is inactive" = false := by
  decide

/-- C4 (amended): for every active principal with `mfaEnabled = false`,
Executives included, and every action on a resource in
{security, users, ai_actions}, a failure-free `authorize` denies with a
reason mentioning multi-factor authentication. -/
theorem authorize_mfa_denial (am : AuditManager) (now : Nat) (user : User)
    (resource action : String) (context : List (String × String))
    (hActive : user.isActive = true) (hMfa : user.mfaEnabled = false)
    (hRes : resource = "security" ∨ resource = "users" ∨ resource = "ai_actions") :
    (authorize false am now user resource action context).1.allowed = false
    ∧ (authorize false am now user resource action context).1.reason
      = some "Multi-factor authentication required"
    ∧ mentionsMFA "Multi-factor authentication required" = true := by
  have hreq : requiresMFA resource action = true := by
    rcases hRes with h | h | h <;> simp [requiresMFA, h]
  refine ⟨?_, ?_, by decide⟩ <;> simp [authorize, hActive, hMfa, hreq]

/-- Witness for C4: the active Executive `"exec-3"` without MFA is denied on
`security`/`view` with the MFA reason. -/
theorem authorize_mfa_denial_witness :
    (authorize false demoAudit 0
        { id := "exec-3", username := "carol", email := "carol@example.com"
          role := .EXECUTIVE, permissions := [], mfaEnabled := false, isActive := true }
        "security" "view" []).1.allowed = false
    ∧ (authorize false demoAudit 0
        { id := "exec-3", username := "carol", email := "carol@example.com"
          role := .EXECUTIVE, permissions := [], mfaEnabled := false, isActive := true }
        "security" "view" []).1.reason = some "Multi-factor authentication required"
    ∧ mentionsMFA "Multi-factor authentication required" = true :=
  authorize_mfa_denial demoAudit 0
    { id := "exec-3", username := "carol", email := "carol@example.com"
      role := .EXECUTIVE, permissions := [], mfaEnabled := false, isActive := true }
    "security" "view" [] rfl rfl (Or.inl rfl)

/-- A list has no element satisfying `p` exactly when the filtered length is
zero. -/
theorem any_eq_false_iff_filter_len {α : Type} (l : List α) (p : α → Bool) :
    l.any p = false ↔ (l.filter p).length = 0 := by
  rw [List.length_eq_zero, List.filter_eq_nil_iff, List.any_eq_false]

/-- The count-based overall status of `assessCompliance` agrees with the
spec's any-based phrasing: NonCompliant if any requirement is NonCompliant,
else Partial if any is Partial, else Compliant. -/
theorem overallStatus_eq_any (reqs : List ComplianceRequirement) :
    overallStatus reqs =
      (if reqs.any (fun r => decide (r.status = ReqStatus.NON_COMPLIANT))
        then FwStatus.NON_COMPLIANT
       else if reqs.any (fun r => decide (r.status = ReqStatus.PARTIAL))
        then FwStatus.PARTIAL
       else FwStatus.COMPLIANT) := by
  unfold overallStatus
  by_cases hnc : reqs.any (fun r => decide (r.status = ReqStatus.NON_COMPLIANT)) = true
  · have hlen :
        (reqs.filter fun r => decide (r.status = ReqStatus.NON_COMPLIANT)).length ≠ 0 := by
      intro h0
      have := (any_eq_false_iff_filter_len reqs _).mpr h0
      rw [hnc] at this
      exact absurd this (by decide)
    simp [hnc, hlen]
  · have hfalse : reqs.any (fun r => decide (r.status = ReqStatus.NON_COMPLIANT)) = false := by
      simpa using hnc
    have h0 := (any_eq_false_iff_filter_len reqs _).mp hfalse
    by_cases hp : reqs.any (fun r => decide (r.status = ReqStatus.PARTIAL)) = true
    · have hplen :
          (reqs.filter fun r => decide (r.status = ReqStatus.PARTIAL)).length ≠ 0 := by
        intro hh
        have := (any_eq_false_iff_filter_len reqs _).mpr hh
        rw [hp] at this
        exact absurd this (by decide)
      simp [hnc, hp, h0, hplen]
    · have hpfalse : reqs.any (fun r => decide (r.status = ReqStatus.PARTIAL)) = false := by
        simpa using hp
      have h0p := (any_eq_false_iff_filter_len reqs _).mp hpfalse
      simp [hnc, hp, h0, h0p]

/-- Re-assessing leaves `checkRequirement` unchanged: the rule reads only
the category and evidence, not the status or timestamp being overwritten. -/
theorem checkRequirement_update (r : ComplianceRequirement) (s : ReqStatus) (t : Nat) :
    checkRequirement { r with status := s, lastChecked := t } = checkRequirement r := by
  cases r
  rfl

/-- C5: `assessCompliance` fails with the not-found error on an unknown
framework name; on a known one it returns the framework with every
requirement's status recomputed by its category rule over the evidence and
the overall status NonCompliant if any requirement is NonCompliant, else
Partial if any is Partial, else Compliant. -/
theorem assessCompliance_spec (cm : ComplianceManager) (am : AuditManager) (now : Nat)
    (name : String) :
    (findFramework cm.frameworks name = none →
      assessCompliance cm am now name
        = Except.error ("Compliance framework " ++ name ++ " not found"))
    ∧ ∀ fw, findFramework cm.frameworks name = some fw →
        ∃ fw' cm' am', assessCompliance cm am now name = Except.ok (fw', cm', am')
          ∧ fw'.requirements.map (fun r => r.status) = fw.requirements.map checkRequirement
          ∧ fw'.status =
              (if fw'.requirements.any (fun r => decide (r.status = ReqStatus.NON_COMPLIANT))
                then FwStatus.NON_COMPLIANT
               else if fw'.requirements.any (fun r => decide (r.status = ReqStatus.PARTIAL))
                then FwStatus.PARTIAL
               else FwStatus.COMPLIANT) := by
  constructor
  · intro h
    unfold assessCompliance
    rw [h]
  · intro fw h
    unfold assessCompliance
    rw [h]
    refine ⟨_, _, _, rfl, ?_, ?_⟩
    · rw [List.map_map]
      rfl
    · exact overallStatus_eq_any _

/-- Witness for C5: the unknown name `"NOPE"` fails; `"GDPR"` is assessed
with the category rules and the any-based overall status. -/
theorem assessCompliance_spec_witness :
    assessCompliance (initialComplianceManager 0) demoAudit 1 "NOPE"
      = Except.error "Compliance framework NOPE not found"
    ∧ ∃ fw' cm' am',
        assessCompliance (initialComplianceManager 0) demoAudit 1 "GDPR"
          = Except.ok (fw', cm', am')
        ∧ fw'.requirements.map (fun r => r.status)
          = (gdprFramework 0).requirements.map checkRequirement
        ∧ fw'.status =
            (if fw'.requirements.any (fun r => decide (r.status = ReqStatus.NON_COMPLIANT))
              then FwStatus.NON_COMPLIANT
             else if fw'.requirements.any (fun r => decide (r.status = ReqStatus.PARTIAL))
              then FwStatus.PARTIAL
             else FwStatus.COMPLIANT) :=
  ⟨(assessCompliance_spec (initialComplianceManager 0) demoAudit 1 "NOPE").1 rfl,
   (assessCompliance_spec (initialComplianceManager 0) demoAudit 1 "GDPR").2
     (gdprFramework 0) rfl⟩

/-- Storing the assessed framework back (the `Map` mutation) makes the next
lookup of the same name return it. -/
theorem findFramework_set (l : List (String × ComplianceFramework)) (name : String)
    (fw' : ComplianceFramework) :
    findFramework (l.map fun p => if p.1 = name then (p.1, fw') else p) name
      = (findFramework l name).map fun _ => fw' := by
  induction l with
  | nil => rfl
  | cons hd tl ih =>
    obtain ⟨k, v⟩ := hd
    simp only [List.map_cons]
    by_cases hk : k = name
    · subst hk
      rw [show (if (k, v).1 = k then ((k, v).1, fw') else (k, v)) = (k, fw') from if_pos rfl]
      show (if k = k then some fw'
          else findFramework (tl.map fun p => if p.1 = k then (p.1, fw') else p) k)
        = Option.map (fun _ => fw') (if k = k then some v else findFramework tl k)
      rw [if_pos rfl, if_pos rfl]
      rfl
    · rw [show (if (k, v).1 = name then ((k, v).1, fw') else (k, v)) = (k, v) from if_neg hk]
      show (if k = name then some v
          else findFramework (tl.map fun p => if p.1 = name then (p.1, fw') else p) name)
        = Option.map (fun _ => fw') (if k = name then some v else findFramework tl name)
      rw [if_neg hk, if_neg hk, ih]

/-- `overallStatus` depends only on the statuses. -/
theorem overallStatus_congr (l1 l2 : List ComplianceRequirement)
    (h : l1.map (fun r => r.status) = l2.map (fun r => r.status)) :
    overallStatus l1 = overallStatus l2 := by
  have hcount : ∀ s : ReqStatus,
      (l1.filter fun r => decide (r.status = s)).length
        = (l2.filter fun r => decide (r.status = s)).length := by
    intro s
    rw [← List.countP_eq_length_filter, ← List.countP_eq_length_filter]
    have hmap := congrArg (List.countP fun st => decide (st = s)) h
    rwa [List.countP_map, List.countP_map] at hmap
  unfold overallStatus
  rw [hcount ReqStatus.NON_COMPLIANT, hcount ReqStatus.PARTIAL]

/-- Assessing an already-assessed requirement list changes no status: the
second pass recomputes the same category rule over unchanged evidence. -/
theorem assessed_twice_status (reqs : List ComplianceRequirement) (t1 t2 : Nat) :
    ((reqs.map fun r =>
        ({ r with status := checkRequirement r, lastChecked := t1 }
          : ComplianceRequirement)).map fun r =>
      ({ r with status := checkRequirement r, lastChecked := t2 }
        : ComplianceRequirement)).map (fun r => r.status)
      = (reqs.map fun r =>
          ({ r with status := checkRequirement r, lastChecked := t1 }
            : ComplianceRequirement)).map (fun r => r.status) := by
  simp only [List.map_map]
  apply List.map_congr_left
  intro r _
  exact checkRequirement_update r (checkRequirement r) t1

/-- C8: if `assessCompliance` succeeded once, running it again on the
resulting manager state with no change to any evidence yields the same
overall framework status and the same per-requirement statuses. -/
theorem assess_idempotent (cm : ComplianceManager) (am am2 : AuditManager)
    (now now2 : Nat) (name : String) (fw1 : ComplianceFramework)
    (cm1 : ComplianceManager) (am1 : AuditManager)
    (h : assessCompliance cm am now name = Except.ok (fw1, cm1, am1)) :
    ∃ fw2 cm2 am3, assessCompliance cm1 am2 now2 name = Except.ok (fw2, cm2, am3)
      ∧ fw2.status = fw1.status
      ∧ fw2.requirements.map (fun r => r.status)
        = fw1.requirements.map (fun r => r.status) := by
  unfold assessCompliance at h
  cases hf : findFramework cm.frameworks name with
  | none =>
    rw [hf] at h
    simp at h
  | some fw =>
    rw [hf] at h
    simp only [Except.ok.injEq, Prod.mk.injEq] at h
    obtain ⟨hfw1, hcm1, -⟩ := h
    have hf1 : findFramework cm1.frameworks name = some fw1 := by
      rw [← hcm1]
      show findFramework (cm.frameworks.map fun p =>
        if p.1 = name then (p.1, _) else p) name = some fw1
      rw [findFramework_set, hf, ← hfw1]
      rfl
    unfold assessCompliance
    rw [hf1]
    refine ⟨_, _, _, rfl, ?_, ?_⟩
    · show overallStatus _ = fw1.status
      rw [← hfw1]
      show overallStatus
        ((fw.requirements.map fun r =>
            { r with status := checkRequirement r, lastChecked := now }).map fun r =>
          { r with status := checkRequirement r, lastChecked := now2 })
        = overallStatus (fw.requirements.map fun r =>
            { r with status := checkRequirement r, lastChecked := now })
      exact overallStatus_congr _ _ (assessed_twice_status fw.requirements now now2)
    · rw [← hfw1]
      show ((fw.requirements.map fun r =>
            { r with status := checkRequirement r, lastChecked := now }).map fun r =>
          { r with status := checkRequirement r, lastChecked := now2 }).map (fun r => r.status)
        = (fw.requirements.map fun r =>
            { r with status := checkRequirement r, lastChecked := now }).map (fun r => r.status)
      exact assessed_twice_status fw.requirements now now2

/-- The first assessment run of the GDPR framework. -/
def run1 : Except String (ComplianceFramework × ComplianceManager × AuditManager) :=
  assessCompliance (initialComplianceManager 0) demoAudit 1 "GDPR"

/-- The framework returned by `run1`. -/
def run1Framework : ComplianceFramework :=
  match run1 with
  | .ok (f, _, _) => f
  | .error _ =>
      { name := "", version := "", requirements := [], lastAssessment := 0, status := .PENDING }

/-- The manager state after `run1`. -/
def run1Manager : ComplianceManager :=
  match run1 with
  | .ok (_, c, _) => c
  | .error _ => { frameworks := [], retentionPolicies := [] }

/-- The audit state after `run1`. -/
def run1Audit : AuditManager :=
  match run1 with
  | .ok (_, _, a) => a
  | .error _ => demoAudit

/-- Witness for C8: re-assessing GDPR right after a successful assessment
reproduces the same overall and per-requirement statuses. -/
theorem assess_idempotent_witness :
    ∃ fw2 cm2 am3, assessCompliance run1Manager demoAudit 2 "GDPR" = Except.ok (fw2, cm2, am3)
      ∧ fw2.status = run1Framework.status
      ∧ fw2.requirements.map (fun r => r.status)
        = run1Framework.requirements.map (fun r => r.status) :=
  assess_idempotent (initialComplianceManager 0) demoAudit demoAudit 1 2 "GDPR"
    run1Framework run1Manager run1Audit rfl
